import Mathlib

/-
  Verification of the volume lifecycle logic of a block-storage volume
  plugin (Go source: plugin.go, util.go).  The Go functions are embedded
  shallowly: external effects (cloud API calls, command execution,
  syscalls) are supplied as oracles, and each embedded operation returns
  the list of externally visible actions it performed together with its
  Go-level result.  A Go function that can dereference a nil pointer is
  given an explicit crash outcome.
-/

namespace CinderPlugin

/-- An attachment of a volume to a compute instance (server ID, attachment ID). -/
structure Attachment where
  serverID : String
  attachmentID : String
deriving DecidableEq, Repr

/-- A remote volume record as returned by the cloud block-storage API. -/
structure Volume where
  id : String
  name : String
  status : String
  attachments : List Attachment
deriving DecidableEq, Repr

/-- Outcome of a Go function returning (value, error): either a value,
an error, or a runtime crash (nil-pointer dereference). -/
inductive GoResult (α : Type) where
  | ok (a : α)
  | err (e : String)
  | crash (m : String)
deriving DecidableEq, Repr

/-- Outcome of Go Mount, which returns a response pointer and an error,
either of which may independently be nil. -/
inductive GoRet (α : Type) where
  | crash (m : String)
  | ret (resp : Option α) (errv : Option String)
deriving DecidableEq, Repr

/-- The plugin configuration fields relevant to the verified operations
(tConfig in the source). -/
structure Config where
  defaultSize : String
  defaultType : String
  encryptionKey : String
  mountDir : String
  volumeSubDir : String
  filesystem : String
  timeoutVolumeState : Nat
  timeoutDeviceWait : Nat
deriving DecidableEq, Repr

/-- The message of a Go nil-pointer dereference runtime panic. -/
def nilDerefMsg : String := "invalid memory address or nil pointer dereference"

/-- Scan the pages returned by the volume listing, stopping at the first
page whose extraction fails (the EachPage callback returns the error) or
at the first volume whose name equals the requested name (the callback
stops the iteration).  Mirrors the pager loop inside getByName. -/
def scanPages (name : String) : List (Except String (List Volume)) → Option Volume
  | [] => none
  | Except.error _ :: _ => none
  | Except.ok vl :: rest =>
    match vl.find? (fun v => v.name == name) with
    | some v => some v
    | none => scanPages name rest

/-- getByName (plugin.go): lists volumes filtered by name, records the
first exact match in a pointer that starts out nil, then unconditionally
evaluates len(volume.ID).  When no volume matched, that dereferences the
nil pointer and the function crashes. -/
def getByName (pages : List (Except String (List Volume))) (name : String) : GoResult Volume :=
  match scanPages name pages with
  | some v => if v.id.length = 0 then .err "Not Found" else .ok v
  | none => .crash nilDerefMsg

/-- Externally visible actions of waitOnVolumeState. -/
inductive WaitEvent where
  | sleepPoll
  | fetch
  | sleepSettle
deriving DecidableEq, Repr

/-- The polling loop of waitOnVolumeState: iterations i = 1..timeout,
each sleeping, re-fetching the volume, and returning on the first fetch
whose status equals the target (after a settle sleep).  The exhaustion
error reports origStatus: in the Go source the loop re-fetch shadows the
outer volume variable, so the error formats the status the volume had
when the wait started. -/
def waitPoll (fetches : Nat → Except String Volume) (target : String)
    (origStatus : String) : Nat → Nat → List WaitEvent × Except String Volume
  | 0, _ => ([], .error ("Volume status became " ++ origStatus))
  | fuel + 1, i =>
    match fetches i with
    | .error e => ([.sleepPoll, .fetch], .error e)
    | .ok v =>
      if v.status = target then ([.sleepPoll, .fetch, .sleepSettle], .ok v)
      else
        let rest := waitPoll fetches target origStatus fuel (i + 1)
        (.sleepPoll :: .fetch :: rest.1, rest.2)

/-- waitOnVolumeState (plugin.go): return immediately when the volume is
already at the target status, otherwise poll up to the configured
timeout. -/
def waitOnVolumeState (timeout : Nat) (fetches : Nat → Except String Volume)
    (vol : Volume) (target : String) : List WaitEvent × Except String Volume :=
  if vol.status = target then ([], .ok vol)
  else waitPoll fetches target vol.status timeout 1

lemma waitPoll_exhaust (fetches : Nat → Except String Volume) (target origStatus : String) :
    ∀ (fuel i : Nat),
    (∀ j, i ≤ j → j < i + fuel → ∃ v, fetches j = .ok v ∧ v.status ≠ target) →
    (waitPoll fetches target origStatus fuel i).2
      = .error ("Volume status became " ++ origStatus) := by
  intro fuel
  induction fuel with
  | zero => intro i _; simp [waitPoll]
  | succ n ih =>
    intro i h
    obtain ⟨v, hv, hvs⟩ := h i (Nat.le_refl i) (by omega)
    have := ih (i + 1) (fun j hj1 hj2 => h j (by omega) (by omega))
    simp only [waitPoll, hv]
    simp [hvs, this]

/-- Claim C2 (as stated) is false: the timeout error reports the status
the volume had at call time, not the status of the last re-fetch.  With
initial status creating and re-fetches observing detaching then
error-state, the error still says creating. -/
def cexFetches : Nat → Except String Volume := fun i =>
  if i = 1 then .ok ⟨"vid", "vol", "detaching", []⟩
  else .ok ⟨"vid", "vol", "error-state", []⟩

/-- Counterexample for claim C2: on timeout exhaustion the returned
error names the initially observed status "creating" even though the
last re-fetch during polling observed "error-state". -/
theorem waitOnVolumeState_reports_initial_status :
    (waitOnVolumeState 2 cexFetches ⟨"vid", "vol", "creating", []⟩ "available").2
        = Except.error "Volume status became creating"
    ∧ cexFetches 2 = Except.ok ⟨"vid", "vol", "error-state", []⟩
    ∧ "Volume status became creating" ≠ "Volume status became error-state" := by
  refine ⟨rfl, rfl, by decide⟩

/-- Claim C2 (amended): waitOnVolumeState returns the volume immediately
and performs no polling action when it is already at the target status;
and when every re-fetch within the timeout observes a status different
from the target, it returns an error reporting the volume's initially
observed status (the status of the argument, due to variable shadowing
of the loop re-fetch in the source). -/
theorem waitOnVolumeState_spec (timeout : Nat) (fetches : Nat → Except String Volume)
    (vol : Volume) (target : String) :
    (vol.status = target → waitOnVolumeState timeout fetches vol target = ([], .ok vol))
    ∧ (vol.status ≠ target →
        (∀ j, 1 ≤ j → j ≤ timeout → ∃ v, fetches j = .ok v ∧ v.status ≠ target) →
        (waitOnVolumeState timeout fetches vol target).2
          = .error ("Volume status became " ++ vol.status)) := by
  constructor
  · intro h
    simp [waitOnVolumeState, h]
  · intro hne h
    have : (waitPoll fetches target vol.status timeout 1).2
        = .error ("Volume status became " ++ vol.status) :=
      waitPoll_exhaust fetches target vol.status timeout 1
        (fun j hj1 hj2 => h j hj1 (by omega))
    simp [waitOnVolumeState, hne, this]

/-- Witness fetches for the amended claim C2: the single permitted
re-fetch still observes status creating. -/
def wFetches : Nat → Except String Volume := fun _ => .ok ⟨"vid", "vol", "creating", []⟩

/-- Witness for the amended claim C2 at a concrete input. -/
theorem waitOnVolumeState_spec_witness :
    (waitOnVolumeState 1 wFetches ⟨"vid", "vol", "creating", []⟩ "available").2
      = Except.error "Volume status became creating" :=
  (waitOnVolumeState_spec 1 wFetches ⟨"vid", "vol", "creating", []⟩ "available").2
    (by decide) (fun j _ _ => ⟨⟨"vid", "vol", "creating", []⟩, rfl, by decide⟩)

/-- Claim C1: getByName crashes with a nil-pointer dereference when no
listed volume matches the requested name (instead of returning the
intended NotFound error), and returns the first exact name match when
one exists with a non-empty ID. -/
theorem getByName_spec :
    getByName [Except.ok []] "myvol" = GoResult.crash nilDerefMsg
    ∧ (∀ (vl : List Volume) (name : String) (v : Volume),
        vl.find? (fun w => w.name == name) = some v → v.id.length ≠ 0 →
        getByName [Except.ok vl] name = .ok v) := by
  constructor
  · rfl
  · intro vl name v hfind hid
    simp [getByName, scanPages, hfind, hid]

/-- Witness for claim C1: a concrete listing in which the first exact
match is returned. -/
theorem getByName_spec_witness :
    getByName [Except.ok [⟨"vid1", "myvol", "available", []⟩]] "myvol"
      = GoResult.ok ⟨"vid1", "myvol", "available", []⟩ :=
  getByName_spec.2 [⟨"vid1", "myvol", "available", []⟩] "myvol"
    ⟨"vid1", "myvol", "available", []⟩ (by decide) (by decide)

/-- detachVolume (plugin.go): delete every current attachment, stopping
at the first failure; on success return the volume unchanged.  The
deletes oracle gives the outcome of the i-th attachment delete call. -/
def detachVolume (deletes : Nat → Option String) (vol : Volume) : Except String Volume :=
  detachLoop deletes vol 0 vol.attachments
where
  detachLoop (deletes : Nat → Option String) (vol : Volume) :
      Nat → List Attachment → Except String Volume
    | _, [] => .ok vol
    | i, _ :: rest =>
      match deletes i with
      | some e => .error e
      | none => detachLoop deletes vol (i + 1) rest

/-- Whether the first character list occurs contiguously inside the
second. -/
def listContains (sub : List Char) : List Char → Bool
  | [] => sub.isEmpty
  | c :: rest => sub.isPrefixOf (c :: rest) || listContains sub rest

/-- Go strings.Contains, at the character level. -/
def goContains (s sub : String) : Bool := listContains sub.data s.data

/-- Externally visible actions of waitForDevice. -/
inductive WFDEvent where
  | readDirCall
  | sleepSecond
deriving DecidableEq, Repr

/-- The polling loop of waitForDevice: each iteration reads the
directory entries (failing hard on a read error), returns the full path
of the first entry whose name contains the identifier, and otherwise
sleeps one second before the next iteration. -/
def waitForDeviceLoop (rd : Nat → Except String (List String)) (dir id : String) :
    Nat → Nat → List WFDEvent × Except String String
  | 0, _ => ([], .error ("Timeout waiting for file: " ++ id))
  | fuel + 1, i =>
    match rd i with
    | .error e => ([.readDirCall], .error e)
    | .ok files =>
      match files.find? (fun f => goContains f id) with
      | some f => ([.readDirCall], .ok (dir ++ "/" ++ f))
      | none =>
        let rest := waitForDeviceLoop rd dir id fuel (i + 1)
        (.readDirCall :: .sleepSecond :: rest.1, rest.2)

/-- waitForDevice (util.go): poll the directory once per second for an
entry whose name contains the identifier, making timeout+1 attempts. -/
def waitForDevice (rd : Nat → Except String (List String)) (dir id : String)
    (timeout : Nat) : List WFDEvent × Except String String :=
  waitForDeviceLoop rd dir id (timeout + 1) 0

lemma waitForDeviceLoop_count_le (rd : Nat → Except String (List String))
    (dir id : String) : ∀ (fuel i : Nat),
    ((waitForDeviceLoop rd dir id fuel i).1.count WFDEvent.readDirCall) ≤ fuel := by
  intro fuel
  induction fuel with
  | zero => intro i; simp [waitForDeviceLoop]
  | succ n ih =>
    intro i
    simp only [waitForDeviceLoop]
    split
    · simp
    · split
      · simp
      · have := ih (i + 1)
        simp [List.count_cons]
        omega

lemma waitForDeviceLoop_exhaust (rd : Nat → Except String (List String))
    (dir id : String) : ∀ (fuel i : Nat),
    (∀ j, j < fuel → ∃ files, rd (i + j) = .ok files
        ∧ files.find? (fun f => goContains f id) = none) →
    (waitForDeviceLoop rd dir id fuel i).2 = .error ("Timeout waiting for file: " ++ id)
    ∧ ((waitForDeviceLoop rd dir id fuel i).1.count WFDEvent.readDirCall) = fuel := by
  intro fuel
  induction fuel with
  | zero => intro i _; simp [waitForDeviceLoop]
  | succ n ih =>
    intro i h
    obtain ⟨files, hok, hnone⟩ := h 0 (by omega)
    simp only [Nat.add_zero] at hok
    have hrest := ih (i + 1) (fun j hj => by
      obtain ⟨fs, h1, h2⟩ := h (j + 1) (by omega)
      have harith : i + 1 + j = i + (j + 1) := by omega
      exact ⟨fs, by rw [harith, h1], h2⟩)
    simp only [waitForDeviceLoop, hok, hnone]
    constructor
    · exact hrest.1
    · simp [List.count_cons, hrest.2]

lemma waitForDeviceLoop_hit (rd : Nat → Except String (List String))
    (dir id : String) : ∀ (k fuel i : Nat), k < fuel →
    (∀ j, j < k → ∃ files, rd (i + j) = .ok files
        ∧ files.find? (fun f => goContains f id) = none) →
    ∀ files f, rd (i + k) = .ok files →
    files.find? (fun g => goContains g id) = some f →
    (waitForDeviceLoop rd dir id fuel i).2 = .ok (dir ++ "/" ++ f) := by
  intro k
  induction k with
  | zero =>
    intro fuel i hk h files f hok hfind
    obtain ⟨m, rfl⟩ := Nat.exists_eq_add_of_lt hk
    simp only [Nat.add_zero] at hok
    simp [waitForDeviceLoop, hok, hfind]
  | succ n ih =>
    intro fuel i hk h files f hok hfind
    obtain ⟨files0, hok0, hnone0⟩ := h 0 (by omega)
    simp only [Nat.add_zero] at hok0
    obtain ⟨m, rfl⟩ := Nat.exists_eq_add_of_lt hk
    have := ih (n + 1 + m) (i + 1) (by omega)
      (fun j hj => by
        obtain ⟨fs, h1, h2⟩ := h (j + 1) (by omega)
        have harith : i + 1 + j = i + (j + 1) := by omega
        exact ⟨fs, by rw [harith, h1], h2⟩)
      files f (by
        have harith : i + 1 + n = i + (n + 1) := by omega
        rw [harith, hok]) hfind
    simp [waitForDeviceLoop, hok0, hnone0, this]

/-- Claim C8: waitForDevice makes at most timeout+1 directory reads;
when every attempt within the budget reads successfully and finds no
entry containing the identifier, it returns the distinct timeout error
naming the identifier after exactly timeout+1 reads; and as soon as an
attempt finds an entry containing the identifier, it returns the full
path of the first such entry. -/
theorem waitForDevice_spec (rd : Nat → Except String (List String))
    (dir id : String) (timeout : Nat) :
    ((waitForDevice rd dir id timeout).1.count WFDEvent.readDirCall ≤ timeout + 1)
    ∧ ((∀ i, i ≤ timeout → ∃ files, rd i = .ok files
          ∧ files.find? (fun f => goContains f id) = none) →
        (waitForDevice rd dir id timeout).2 = .error ("Timeout waiting for file: " ++ id)
        ∧ (waitForDevice rd dir id timeout).1.count WFDEvent.readDirCall = timeout + 1)
    ∧ (∀ k, k ≤ timeout →
        (∀ j, j < k → ∃ files, rd j = .ok files
            ∧ files.find? (fun f => goContains f id) = none) →
        ∀ files f, rd k = .ok files →
        files.find? (fun g => goContains g id) = some f →
        (waitForDevice rd dir id timeout).2 = .ok (dir ++ "/" ++ f)) := by
  refine ⟨waitForDeviceLoop_count_le rd dir id (timeout + 1) 0, ?_, ?_⟩
  · intro h
    exact waitForDeviceLoop_exhaust rd dir id (timeout + 1) 0
      (fun j hj => by simpa using h j (by omega))
  · intro k hk h files f hok hfind
    exact waitForDeviceLoop_hit rd dir id k (timeout + 1) 0 (by omega)
      (fun j hj => by simpa using h j hj) files f (by simpa using hok) hfind

/-- Witness directory reads for claim C8: the first attempt sees no
matching entry, the second sees one. -/
def wReadDirs : Nat → Except String (List String) := fun i =>
  if i = 0 then .ok ["foo"] else .ok ["virtio-abc123"]

/-- Witness for claim C8 at a concrete input: the device path of the
first matching entry is returned. -/
theorem waitForDevice_spec_witness :
    (waitForDevice wReadDirs "/dev/disk/by-id" "abc" 1).2
      = Except.ok "/dev/disk/by-id/virtio-abc123" := by
  have := (waitForDevice_spec wReadDirs "/dev/disk/by-id" "abc" 1).2.2 1 (by decide)
    (fun j hj => by
      have hj0 : j = 0 := by omega
      subst hj0
      exact ⟨["foo"], rfl, by decide⟩)
    ["virtio-abc123"] "virtio-abc123" rfl (by decide)
  simpa using this

/-- Externally visible actions of attachVolume (util.go). -/
inductive AVEvent where
  | getByNameCall
  | waitCall
  | volGetCall
  | detachCall
  | attachCreateCall
  | devWaitCall
deriving DecidableEq, Repr

/-- Oracles for the remote and local effects of attachVolume. -/
structure AttachEnv where
  pages : List (Except String (List Volume))
  wait1Fetches : Nat → Except String Volume
  refetch : Except String Volume
  detachDeletes : Nat → Option String
  wait2Fetches : Nat → Except String Volume
  attachCreate : Option String
  readDirs : Nat → Except String (List String)

/-- The detach-if-attached step of attachVolume: when the re-fetched
volume still has attachments, detach them all and wait for the volume
to become available again. -/
def gateDetachStep (cfg : Config) (env : AttachEnv) (vol2 : Volume)
    (acc : List AVEvent) : List AVEvent × GoResult Volume :=
  if vol2.attachments.length > 0 then
    match detachVolume env.detachDeletes vol2 with
    | .error e => (acc ++ [.detachCall], .err e)
    | .ok vol3 =>
      match (waitOnVolumeState cfg.timeoutVolumeState env.wait2Fetches vol3 "available").2 with
      | .error e => (acc ++ [.detachCall, .waitCall], .err e)
      | .ok vol4 => (acc ++ [.detachCall, .waitCall], .ok vol4)
  else (acc, .ok vol2)

/-- The re-fetch step of attachVolume (volumes.Get), followed by the
detach-if-attached step. -/
def gateRefetch (cfg : Config) (env : AttachEnv) (acc : List AVEvent) :
    List AVEvent × GoResult Volume :=
  match env.refetch with
  | .error e => (acc ++ [.volGetCall], .err e)
  | .ok vol2 => gateDetachStep cfg env vol2 (acc ++ [.volGetCall])

/-- The prefix of attachVolume up to (but excluding) the status gate:
look the volume up by name; if it is creating or detaching, wait for it
to become available; re-fetch it; detach it if it is still attached. -/
def attachGateT (cfg : Config) (env : AttachEnv) (name : String) :
    List AVEvent × GoResult Volume :=
  match getByName env.pages name with
  | .crash m => ([.getByNameCall], .crash m)
  | .err e => ([.getByNameCall], .err e)
  | .ok vol0 =>
    if vol0.status = "creating" ∨ vol0.status = "detaching" then
      match (waitOnVolumeState cfg.timeoutVolumeState env.wait1Fetches vol0 "available").2 with
      | .error e => ([.getByNameCall, .waitCall], .err e)
      | .ok _ => gateRefetch cfg env [.getByNameCall, .waitCall]
    else gateRefetch cfg env [.getByNameCall]

/-- attachVolume (util.go): run the gate; refuse to attach unless the
gated volume's status is available; issue the remote attach; wait for
the local block device whose name contains the first 20 characters of
the volume ID to appear. -/
def attachVolume (cfg : Config) (env : AttachEnv) (name : String) :
    List AVEvent × GoResult String :=
  match attachGateT cfg env name with
  | (evs, .crash m) => (evs, .crash m)
  | (evs, .err e) => (evs, .err e)
  | (evs, .ok vol4) =>
    if vol4.status ≠ "available" then (evs, .err "Invalid Volume State")
    else
      match env.attachCreate with
      | some e => (evs ++ [.attachCreateCall], .err e)
      | none =>
        let devid : String := ⟨vol4.id.data.take 20⟩
        match (waitForDevice env.readDirs "/dev/disk/by-id" devid cfg.timeoutDeviceWait).2 with
        | .error _ => (evs ++ [.attachCreateCall, .devWaitCall],
            .err ("Block device not found: " ++ devid))
        | .ok dev => (evs ++ [.attachCreateCall, .devWaitCall], .ok dev)

lemma gateDetachStep_no_attach (cfg : Config) (env : AttachEnv) (vol2 : Volume)
    (acc : List AVEvent) (h : AVEvent.attachCreateCall ∉ acc) :
    AVEvent.attachCreateCall ∉ (gateDetachStep cfg env vol2 acc).1 := by
  simp only [gateDetachStep]
  split
  · split
    · simp [h]
    · split
      · simp [h]
      · simp [h]
  · exact h

lemma gateRefetch_no_attach (cfg : Config) (env : AttachEnv) (acc : List AVEvent)
    (h : AVEvent.attachCreateCall ∉ acc) :
    AVEvent.attachCreateCall ∉ (gateRefetch cfg env acc).1 := by
  simp only [gateRefetch]
  split
  · simp [h]
  · exact gateDetachStep_no_attach cfg env _ _ (by simp [h])

lemma attachGateT_no_attach (cfg : Config) (env : AttachEnv) (name : String) :
    AVEvent.attachCreateCall ∉ (attachGateT cfg env name).1 := by
  simp only [attachGateT]
  split
  · simp
  · simp
  · split
    · split
      · simp
      · exact gateRefetch_no_attach cfg env _ (by simp)
    · exact gateRefetch_no_attach cfg env _ (by simp)

/-- Claim C6: attachVolume never issues the remote attach call unless
the gate passed with an available volume.  When the volume is initially
creating or detaching and the wait fails, attachVolume returns that
error having performed only the lookup and the wait; when the gated
volume is still not available, it returns the Invalid Volume State
error; in both failure cases no remote attach call appears among its
actions, and conversely any run whose actions include the remote attach
call gated on a volume observed available. -/
theorem attachVolume_gate_spec (cfg : Config) (env : AttachEnv) (name : String) :
    (∀ vol0 e, getByName env.pages name = .ok vol0 →
      (vol0.status = "creating" ∨ vol0.status = "detaching") →
      (waitOnVolumeState cfg.timeoutVolumeState env.wait1Fetches vol0 "available").2
        = .error e →
      attachVolume cfg env name = ([.getByNameCall, .waitCall], .err e)
        ∧ AVEvent.attachCreateCall ∉ (attachVolume cfg env name).1)
    ∧ (∀ vol4, (attachGateT cfg env name).2 = .ok vol4 → vol4.status ≠ "available" →
        (attachVolume cfg env name).2 = .err "Invalid Volume State"
        ∧ AVEvent.attachCreateCall ∉ (attachVolume cfg env name).1)
    ∧ (AVEvent.attachCreateCall ∈ (attachVolume cfg env name).1 →
        ∃ vol4, (attachGateT cfg env name).2 = .ok vol4 ∧ vol4.status = "available") := by
  refine ⟨?_, ?_, ?_⟩
  · intro vol0 e hget hst hwait
    have hgate : attachGateT cfg env name = ([.getByNameCall, .waitCall], .err e) := by
      simp [attachGateT, hget, hst, hwait]
    constructor
    · simp [attachVolume, hgate]
    · simp [attachVolume, hgate]
  · intro vol4 hgate hst
    have hfst := attachGateT_no_attach cfg env name
    rcases hT : attachGateT cfg env name with ⟨evs, res⟩
    rw [hT] at hgate hfst
    simp only at hgate
    subst hgate
    constructor
    · simp [attachVolume, hT, hst]
    · simp only [attachVolume, hT, if_pos hst]
      exact hfst
  · intro hmem
    have hfst := attachGateT_no_attach cfg env name
    rcases hT : attachGateT cfg env name with ⟨evs, res⟩
    rw [hT] at hfst
    simp only at hfst
    cases res with
    | crash m =>
      rw [attachVolume, hT] at hmem
      simp only at hmem
      exact absurd hmem hfst
    | err e =>
      rw [attachVolume, hT] at hmem
      simp only at hmem
      exact absurd hmem hfst
    | ok vol4 =>
      by_cases hst : vol4.status = "available"
      · exact ⟨vol4, by simp [hT], hst⟩
      · rw [attachVolume, hT] at hmem
        simp only [if_pos hst] at hmem
        · exact absurd hmem hfst

/-- Witness environment for claim C6: the volume is creating and every
re-fetch within the wait timeout still observes creating, so the wait
fails and no remote attach is issued. -/
def wAttachEnv : AttachEnv :=
  ⟨[Except.ok [⟨"vid", "vol", "creating", []⟩]],
   fun _ => .ok ⟨"vid", "vol", "creating", []⟩,
   .ok ⟨"vid", "vol", "creating", []⟩,
   fun _ => none,
   fun _ => .ok ⟨"vid", "vol", "creating", []⟩,
   none,
   fun _ => .ok []⟩

/-- Witness configuration used across the concrete instantiations:
fields are default size, default type, encryption key, mount dir,
volume sub dir, filesystem, volume-state timeout, device-wait timeout. -/
def wConfig : Config :=
  ⟨"10", "classic", "", "/var/lib/cinder/mounts", "data", "ext4", 1, 1⟩

/-- Witness for claim C6 at a concrete input: the wait on a creating
volume times out and attachVolume fails without a remote attach call. -/
theorem attachVolume_gate_spec_witness :
    attachVolume wConfig wAttachEnv "vol"
        = ([AVEvent.getByNameCall, AVEvent.waitCall], .err "Volume status became creating")
    ∧ AVEvent.attachCreateCall ∉ (attachVolume wConfig wAttachEnv "vol").1 :=
  (attachVolume_gate_spec wConfig wAttachEnv "vol").1
    ⟨"vid", "vol", "creating", []⟩ "Volume status became creating"
    rfl (Or.inl rfl) rfl

/-- Externally visible actions of createMountDir (util.go). -/
inductive CMEvent where
  | mkdirTry
  | sleep (units : Nat)
  | unmountTry
deriving DecidableEq, Repr

/-- The retry loop of createMountDir: remaining attempts, attempt index,
current backoff.  On a failed attempt it sleeps for the current backoff,
doubles it, and issues an unconditional unmount of the path whose result
is ignored. -/
def createMountDirLoop (mk : Nat → Bool) (path : String) :
    Nat → Nat → Nat → List CMEvent × Option String
  | 0, _, _ => ([], some ("Failed creating directory " ++ path))
  | r + 1, i, slp =>
    if mk i then ([.mkdirTry], none)
    else
      let rest := createMountDirLoop mk path r (i + 1) (slp * 2)
      (.mkdirTry :: .sleep slp :: .unmountTry :: rest.1, rest.2)

/-- createMountDir (util.go): up to 3 directory-creation attempts with
exponential backoff starting at one time unit. -/
def createMountDir (mk : Nat → Bool) (path : String) : List CMEvent × Option String :=
  createMountDirLoop mk path 3 0 1

/-- Claim C7: createMountDir makes at most 3 creation attempts; each
failed attempt is followed by a sleep of the current backoff (1, then 2,
then 4 units, doubling) and an unconditional unmount; at least 1+2=3
units of backoff elapse before the third attempt; success on any attempt
yields nil and three failures yield the named directory-creation
error. -/
theorem createMountDir_spec (mk : Nat → Bool) (path : String) :
    ((createMountDir mk path).1.count CMEvent.mkdirTry ≤ 3)
    ∧ (mk 0 = false → mk 1 = false → mk 2 = true →
        createMountDir mk path
          = ([.mkdirTry, .sleep 1, .unmountTry, .mkdirTry, .sleep 2, .unmountTry,
              .mkdirTry], none))
    ∧ (mk 0 = false → mk 1 = false → mk 2 = false →
        createMountDir mk path
          = ([.mkdirTry, .sleep 1, .unmountTry, .mkdirTry, .sleep 2, .unmountTry,
              .mkdirTry, .sleep 4, .unmountTry],
             some ("Failed creating directory " ++ path)))
    ∧ (mk 0 = true → createMountDir mk path = ([.mkdirTry], none))
    ∧ (mk 0 = false → mk 1 = true →
        createMountDir mk path
          = ([.mkdirTry, .sleep 1, .unmountTry, .mkdirTry], none)) := by
  refine ⟨?_, ?_, ?_, ?_, ?_⟩
  · cases h0 : mk 0 <;> cases h1 : mk 1 <;> cases h2 : mk 2 <;>
      simp [createMountDir, createMountDirLoop, h0, h1, h2, List.count_cons]
  · intro h0 h1 h2
    simp [createMountDir, createMountDirLoop, h0, h1, h2]
  · intro h0 h1 h2
    simp [createMountDir, createMountDirLoop, h0, h1, h2]
  · intro h0
    simp [createMountDir, createMountDirLoop, h0]
  · intro h0 h1
    simp [createMountDir, createMountDirLoop, h0, h1]

/-- Witness attempt outcomes for claim C7: the first two creation
attempts fail and the third succeeds. -/
def wMkdir : Nat → Bool := fun i => 2 ≤ i

/-- Witness for claim C7 at a concrete input: two failures then success,
with backoff sleeps of 1 and 2 units before the third attempt. -/
theorem createMountDir_spec_witness :
    createMountDir wMkdir "/var/lib/cinder/mounts/vol"
      = ([CMEvent.mkdirTry, CMEvent.sleep 1, CMEvent.unmountTry, CMEvent.mkdirTry,
          CMEvent.sleep 2, CMEvent.unmountTry, CMEvent.mkdirTry], none) :=
  (createMountDir_spec wMkdir "/var/lib/cinder/mounts/vol").2.1
    (by decide) (by decide) (by decide)

/-- The label truncation performed by formatFilesystem: labels longer
than 12 characters are cut to their first 12 characters. -/
def truncateLabel (label : String) : String :=
  if label.length > 12 then ⟨label.data.take 12⟩ else label

/-- formatFilesystem (util.go): build the mkfs command for the
configured filesystem with the truncated label, run it, and on failure
report an error carrying the attempted command line.  Returns the
argument vector of the invoked command together with the Go result
(combined output, error). -/
def formatFilesystem (execR : Except String Unit) (dev label filesystem : String) :
    List String × (String × Option String) :=
  let mkfsBin := "mkfs." ++ filesystem
  let lbl := truncateLabel label
  let args := [mkfsBin, "-L", lbl, dev]
  match execR with
  | .ok _ => (args, ("", none))
  | .error e =>
    (args, (e, some ("Command: " ++ mkfsBin ++ " -L " ++ lbl ++ " " ++ dev
        ++ " - err: " ++ e)))

/-- Claim C9: formatFilesystem always passes the formatter a label of at
most 12 characters; a label of at most 12 characters is used unchanged
and a longer one is truncated to exactly its first 12 characters. -/
theorem formatFilesystem_label_spec (execR : Except String Unit)
    (dev label filesystem : String) :
    (formatFilesystem execR dev label filesystem).1
        = ["mkfs." ++ filesystem, "-L", truncateLabel label, dev]
    ∧ (truncateLabel label).length ≤ 12
    ∧ (label.length ≤ 12 → truncateLabel label = label)
    ∧ (label.length > 12 →
        (truncateLabel label).data = label.data.take 12
        ∧ (truncateLabel label).length = 12) := by
  refine ⟨?_, ?_, ?_, ?_⟩
  · cases execR <;> rfl
  · by_cases h : label.length > 12
    · simp only [truncateLabel, if_pos h]
      show (label.data.take 12).length ≤ 12
      rw [List.length_take]
      omega
    · simp only [truncateLabel, if_neg h]
      omega
  · intro h
    simp only [truncateLabel]
    rw [if_neg (by omega)]
  · intro h
    refine ⟨?_, ?_⟩
    · simp [truncateLabel, if_pos h]
    · simp only [truncateLabel, if_pos h]
      show (label.data.take 12).length = 12
      rw [List.length_take]
      have hlen : label.data.length = label.length := rfl
      omega

/-- Witness for claim C9 at the concrete label from the specification:
a 24-character label formats using exactly its first 12 characters. -/
theorem formatFilesystem_label_spec_witness :
    ("my-very-long-volume-name".length > 12)
    ∧ (truncateLabel "my-very-long-volume-name").data
        = "my-very-long-volume-name".data.take 12
    ∧ truncateLabel "my-very-long-volume-name" = "my-very-long" :=
  ⟨by decide,
   ((formatFilesystem_label_spec (Except.ok ()) "/dev/vdb"
      "my-very-long-volume-name" "ext4").2.2.2 (by decide)).1,
   by decide⟩

/-- isLuks (util.go): run the cryptsetup isLuks check; a failing command
yields (false, the error), a succeeding one yields (true, nil).  In
particular the error component is nil whenever the boolean is true. -/
def isLuks (execR : Except String Unit) : Bool × Option String :=
  match execR with
  | .error e => (false, some e)
  | .ok _ => (true, none)

/-- luksOpen (util.go): derive the mapping name as volumeName_luks and
open the container; on failure return the error with an empty name. -/
def luksOpen (execR : Except String Unit) (volumeName : String) :
    Except String String :=
  match execR with
  | .error e => .error e
  | .ok _ => .ok (volumeName ++ "_luks")

/-- getFilesystemType (util.go): a failing blkid with empty combined
output means no recognized filesystem (not an error); a failing blkid
with output is an error carrying that output; success returns the
output.  The oracle is the pair (combined output, command succeeded). -/
def getFilesystemType (execR : String × Bool) : Except String String :=
  if execR.2 then .ok execR.1
  else if execR.1.length = 0 then .ok ""
  else .error execR.1

/-- Externally visible actions of Mount (plugin.go). -/
inductive MEvent where
  | attachPhase (e : AVEvent)
  | isLuksCall
  | luksOpenCall
  | fsProbeCall
  | formatCall
  | mkdirPhase (e : CMEvent)
  | mountCmdCall
  | subdirCall
deriving DecidableEq, Repr

/-- Oracles for the effects of Mount beyond the attach phase. -/
structure MountEnv where
  attachEnv : AttachEnv
  isLuksExec : Except String Unit
  luksOpenExec : Except String Unit
  fsTypeExec : String × Bool
  formatExec : Except String Unit
  mkdirResults : Nat → Bool
  mountExec : Except String Unit
  subdirMkdir : Option String
  chownResult : Option String

/-- The tail of Mount after the effective device is selected: probe the
filesystem type, format when empty, create the mount directory with
retry, run the mount command, and for a newly formatted volume create
the volume sub-directory and reset its ownership. -/
def mountRest (cfg : Config) (env : MountEnv) (name dev : String)
    (evs : List MEvent) : List MEvent × GoRet String :=
  match getFilesystemType env.fsTypeExec with
  | .error e => (evs ++ [.fsProbeCall], .ret none (some e))
  | .ok fsType =>
    let evs1 := evs ++ [MEvent.fsProbeCall]
    let newVolumeFlag := fsType = ""
    let fmtStep : List MEvent × Option String :=
      if fsType = "" then
        match (formatFilesystem env.formatExec dev name cfg.filesystem).2.2 with
        | some e => ([.formatCall], some e)
        | none => ([.formatCall], none)
      else ([], none)
    match fmtStep with
    | (fevs, some e) => (evs1 ++ fevs, .ret none (some e))
    | (fevs, none) =>
      let evs2 := evs1 ++ fevs
      let path := cfg.mountDir ++ "/" ++ name
      let cm := createMountDir env.mkdirResults path
      let evs3 := evs2 ++ cm.1.map MEvent.mkdirPhase
      match cm.2 with
      | some e => (evs3, .ret none (some e))
      | none =>
        match env.mountExec with
        | .error out => (evs3 ++ [.mountCmdCall], .ret none (some out))
        | .ok _ =>
          let evs4 := evs3 ++ [MEvent.mountCmdCall]
          if newVolumeFlag then
            match env.subdirMkdir with
            | some e => (evs4 ++ [.subdirCall], .ret none (some e))
            | none =>
              match env.chownResult with
              | some e => (evs4 ++ [.subdirCall], .ret none (some e))
              | none =>
                (evs4 ++ [.subdirCall], .ret (some (path ++ "/" ++ cfg.volumeSubDir)) none)
          else (evs4, .ret (some (path ++ "/" ++ cfg.volumeSubDir)) none)

/-- Mount (plugin.go): attach the volume to obtain the physical device;
probe it for encryption; when it is encrypted, require a configured key
file (the source then returns the nil error of the successful isLuks
probe) and otherwise open the container and use the mapping device as
the effective device; then probe, format, create the directory, and
mount. -/
def goMount (cfg : Config) (env : MountEnv) (name : String) :
    List MEvent × GoRet String :=
  match attachVolume cfg env.attachEnv name with
  | (aevs, .crash m) => (aevs.map .attachPhase, .crash m)
  | (aevs, .err e) => (aevs.map .attachPhase, .ret none (some e))
  | (aevs, .ok physdev) =>
    let evs0 := aevs.map MEvent.attachPhase
    let probe := isLuks env.isLuksExec
    let evs1 := evs0 ++ [MEvent.isLuksCall]
    if probe.1 then
      if cfg.encryptionKey = "" then (evs1, .ret none probe.2)
      else
        match luksOpen env.luksOpenExec name with
        | .error e => (evs1 ++ [.luksOpenCall], .ret none (some e))
        | .ok luksName =>
          mountRest cfg env name ("/dev/mapper/" ++ luksName) (evs1 ++ [.luksOpenCall])
    else mountRest cfg env name physdev evs1

/-- Claim C3: when the attached device probes as encrypted (isLuks
succeeds) and no encryption key is configured, Mount stops immediately,
performing no luksOpen, no filesystem probe and no mount command, but it
returns a nil response together with a nil error (the stale nil error of
the successful isLuks call) instead of the non-nil error the claim
requires. -/
theorem goMount_encrypted_no_key (cfg : Config) (env : MountEnv) (name : String)
    (aevs : List AVEvent) (physdev : String)
    (hattach : attachVolume cfg env.attachEnv name = (aevs, .ok physdev))
    (hluks : env.isLuksExec = Except.ok ())
    (hkey : cfg.encryptionKey = "") :
    goMount cfg env name = (aevs.map MEvent.attachPhase ++ [MEvent.isLuksCall],
        GoRet.ret none none)
    ∧ MEvent.luksOpenCall ∉ (goMount cfg env name).1
    ∧ MEvent.fsProbeCall ∉ (goMount cfg env name).1
    ∧ MEvent.mountCmdCall ∉ (goMount cfg env name).1 := by
  have hmain : goMount cfg env name
      = (aevs.map MEvent.attachPhase ++ [MEvent.isLuksCall], GoRet.ret none none) := by
    simp [goMount, hattach, isLuks, hluks, hkey]
  refine ⟨hmain, ?_, ?_, ?_⟩ <;>
    simp [hmain, List.mem_map, List.mem_append]

/-- Witness attach environment for claim C3: an available, unattached
volume whose device appears immediately. -/
def wAttachEnvOk : AttachEnv :=
  ⟨[Except.ok [⟨"vid123", "vol", "available", []⟩]],
   fun _ => .ok ⟨"vid123", "vol", "available", []⟩,
   .ok ⟨"vid123", "vol", "available", []⟩,
   fun _ => none,
   fun _ => .ok ⟨"vid123", "vol", "available", []⟩,
   none,
   fun _ => .ok ["virtio-vid123"]⟩

/-- Witness mount environment for claim C3: the device probes as
encrypted (the cryptsetup isLuks check succeeds). -/
def wMountEnv : MountEnv :=
  ⟨wAttachEnvOk, .ok (), .ok (), ("", true), .ok (), fun _ => true, .ok (), none, none⟩

/-- Witness for claim C3 at a concrete input: Mount on an encrypted
device with no configured key returns a nil response and a nil error. -/
theorem goMount_encrypted_no_key_witness :
    goMount wConfig wMountEnv "vol"
      = ([AVEvent.getByNameCall, AVEvent.volGetCall, AVEvent.attachCreateCall,
          AVEvent.devWaitCall].map MEvent.attachPhase ++ [MEvent.isLuksCall],
         GoRet.ret none none) :=
  (goMount_encrypted_no_key wConfig wMountEnv "vol"
    [AVEvent.getByNameCall, AVEvent.volGetCall, AVEvent.attachCreateCall,
      AVEvent.devWaitCall] "/dev/disk/by-id/virtio-vid123"
    (by decide) rfl rfl).1

/-- Go strconv.Atoi: an optional sign followed by at least one ASCII
digit, with the signed value required to fit in a 64-bit integer. -/
def goAtoi (s : String) : Except Unit Int :=
  let signDigits : Int × List Char :=
    match s.data with
    | '+' :: rest => (1, rest)
    | '-' :: rest => (-1, rest)
    | l => (1, l)
  if signDigits.2.isEmpty then .error ()
  else if signDigits.2.all (fun c => c.isDigit) then
    let n : Nat := signDigits.2.foldl (fun acc c => acc * 10 + (c.toNat - 48)) 0
    let v : Int := signDigits.1 * n
    if v < -(2 ^ 63) ∨ v > 2 ^ 63 - 1 then .error () else .ok v
  else .error ()

/-- Go strings.ToLower, at the character level. -/
def goToLower (s : String) : String := ⟨s.data.map Char.toLower⟩

/-- The per-call options of a Create request (free-form string map in
the protocol; only these three keys are read). -/
structure CreateOptions where
  size : Option String
  typeOpt : Option String
  encryption : Option String
deriving DecidableEq, Repr

/-- Whether Create will encrypt the new volume: the encryption option is
present with any value other than case-insensitive false, and an
encryption key file is configured (otherwise the request is logged and
the volume is left unencrypted). -/
def encryptionEnabled (cfg : Config) (opts : CreateOptions) : Bool :=
  match opts.encryption with
  | some e =>
    if goToLower e ≠ "false" then
      if cfg.encryptionKey = "" then false else true
    else false
  | none => false

/-- Externally visible actions of Create (plugin.go). -/
inductive CEvent where
  | remoteCreateCall
  | attachPhase (e : AVEvent)
  | luksFormatCall
  | lookupCall
  | detachCall
deriving DecidableEq, Repr

/-- Oracles for the effects of Create. -/
structure CreateEnv where
  remoteCreate : Except String Volume
  attachEnv : AttachEnv
  luksFormatExec : Except String Unit
  pages2 : List (Except String (List Volume))
  detachDeletes2 : Nat → Option String

/-- Create (plugin.go): parse the size option (defaulting from the
configuration) with Atoi, failing with a validation error before any
remote call when it does not parse; read the type and encryption
options; create the remote volume; when encryption is enabled, attach
the volume, stamp LUKS on the raw device, then look the volume up and
detach it, logging but not propagating lookup and detach failures. -/
def goCreate (cfg : Config) (env : CreateEnv) (name : String)
    (opts : CreateOptions) : List CEvent × GoResult Unit :=
  let size := opts.size.getD cfg.defaultSize
  match goAtoi size with
  | .error _ => ([], .err "Invalid size option")
  | .ok _ =>
    let enc := encryptionEnabled cfg opts
    match env.remoteCreate with
    | .error e => ([.remoteCreateCall], .err e)
    | .ok _ =>
      if enc then
        match attachVolume cfg env.attachEnv name with
        | (aevs, .crash m) => (.remoteCreateCall :: aevs.map .attachPhase, .crash m)
        | (aevs, .err e) => (.remoteCreateCall :: aevs.map .attachPhase, .err e)
        | (aevs, .ok _) =>
          let evs := CEvent.remoteCreateCall :: aevs.map CEvent.attachPhase
          match env.luksFormatExec with
          | .error e => (evs ++ [.luksFormatCall], .err e)
          | .ok _ =>
            let evs1 := evs ++ [CEvent.luksFormatCall]
            match getByName env.pages2 name with
            | .crash m => (evs1 ++ [.lookupCall], .crash m)
            | .err _ => (evs1 ++ [.lookupCall], .ok ())
            | .ok vol =>
              let _detachResult := detachVolume env.detachDeletes2 vol
              (evs1 ++ [.lookupCall, .detachCall], .ok ())
      else ([.remoteCreateCall], .ok ())

/-- Concrete environment for the claim C4 counterexample: the remote
create succeeds and encryption is not requested. -/
def cexCreateEnv : CreateEnv :=
  ⟨.ok ⟨"vid", "vol", "creating", []⟩, wAttachEnvOk, .ok (), [Except.ok []], fun _ => none⟩

/-- Counterexample for claim C4: the size option -5 does not parse as a
positive integer, yet Create does not fail before the remote call: Atoi
accepts -5 and the remote create call is issued (and the request
succeeds). -/
theorem goCreate_negative_size_passes :
    goAtoi "-5" = Except.ok (-5)
    ∧ (-5 : Int) < 1
    ∧ goCreate wConfig cexCreateEnv "vol" ⟨some "-5", none, none⟩
        = ([CEvent.remoteCreateCall], .ok ()) :=
  ⟨rfl, by decide, rfl⟩

/-- Claim C4 (amended): the size option (or the configured default)
must parse as an integer under Go Atoi semantics; otherwise Create fails
with a validation error having performed no action at all, so no remote
volume is created on an unparsable size option.  Positivity is not
checked. -/
theorem goCreate_size_validation (cfg : Config) (env : CreateEnv) (name : String)
    (opts : CreateOptions)
    (hbad : goAtoi (opts.size.getD cfg.defaultSize) = .error ()) :
    goCreate cfg env name opts = ([], .err "Invalid size option")
    ∧ CEvent.remoteCreateCall ∉ (goCreate cfg env name opts).1 := by
  have hmain : goCreate cfg env name opts = ([], .err "Invalid size option") := by
    simp [goCreate, hbad]
  exact ⟨hmain, by simp [hmain]⟩

/-- Witness for the amended claim C4 at a concrete input: a size option
that is not an integer is rejected with no remote call. -/
theorem goCreate_size_validation_witness :
    goCreate wConfig cexCreateEnv "vol" ⟨some "abc", none, none⟩
        = ([], .err "Invalid size option")
    ∧ CEvent.remoteCreateCall ∉ (goCreate wConfig cexCreateEnv "vol"
        ⟨some "abc", none, none⟩).1 :=
  goCreate_size_validation wConfig cexCreateEnv "vol" ⟨some "abc", none, none⟩ rfl

/-- Claim C10: once the size parses, the remote volume is created,
encryption is enabled and successfully initialized on the attached raw
device, Create returns success whatever the outcomes of the subsequent
volume lookup (short of its crash mode) and detach are; in particular a
failed detach is only logged and the volume can be left attached while
Create reports success. -/
theorem goCreate_detach_failure_ignored (cfg : Config) (env : CreateEnv)
    (name : String) (opts : CreateOptions) (n : Int) (v : Volume)
    (aevs : List AVEvent) (dev : String)
    (hsize : goAtoi (opts.size.getD cfg.defaultSize) = .ok n)
    (henc : encryptionEnabled cfg opts = true)
    (hcreate : env.remoteCreate = .ok v)
    (hattach : attachVolume cfg env.attachEnv name = (aevs, .ok dev))
    (hluks : env.luksFormatExec = .ok ())
    (hnocrash : ∀ m, getByName env.pages2 name ≠ .crash m) :
    (goCreate cfg env name opts).2 = .ok () := by
  simp only [goCreate, hsize, henc, hcreate, hattach, hluks, if_pos]
  cases hg : getByName env.pages2 name with
  | crash m => exact absurd hg (hnocrash m)
  | err e => simp
  | ok vol => simp

/-- Witness environment for claim C10: lookup finds the volume still
attached and the detach call fails. -/
def wCreateEnv : CreateEnv :=
  ⟨.ok ⟨"vid123", "vol", "creating", []⟩, wAttachEnvOk, .ok (),
   [Except.ok [⟨"vid123", "vol", "in-use", [⟨"srv", "att"⟩]⟩]],
   fun _ => some "detach failed"⟩

/-- Witness configuration for claim C10: same as wConfig but with an
encryption key configured. -/
def wConfigEnc : Config :=
  ⟨"10", "classic", "/etc/cinder/key", "/var/lib/cinder/mounts", "data", "ext4", 1, 1⟩

/-- Witness for claim C10 at a concrete input: with encryption enabled
and the detach failing, Create still reports success. -/
theorem goCreate_detach_failure_ignored_witness :
    (goCreate wConfigEnc wCreateEnv "vol" ⟨some "5", none, some "true"⟩).2
      = GoResult.ok () :=
  goCreate_detach_failure_ignored wConfigEnc wCreateEnv "vol"
    ⟨some "5", none, some "true"⟩ 5 ⟨"vid123", "vol", "creating", []⟩
    [AVEvent.getByNameCall, AVEvent.volGetCall, AVEvent.attachCreateCall,
      AVEvent.devWaitCall] "/dev/disk/by-id/virtio-vid123"
    rfl (by decide) rfl (by decide) rfl
    (fun m h => by
      rw [show getByName wCreateEnv.pages2 "vol"
          = GoResult.ok ⟨"vid123", "vol", "in-use", [⟨"srv", "att"⟩]⟩ from rfl] at h
      exact GoResult.noConfusion h)

/-- Externally visible actions of Unmount (plugin.go). -/
inductive UEvent where
  | luksInfoCall
  | statCall
  | unmountSysCall
  | isLuksCall
  | luksCloseCall
  | lookupCall
  | detachCall
deriving DecidableEq, Repr

/-- Oracles for the effects of Unmount: LUKS recovery from the mount
table, the directory stat, the unmount syscall, the encryption probe and
close, and the remote lookup and detach. -/
structure UnmountEnv where
  luksInfo : Except String (String × String × String)
  dirPresent : Except String Bool
  unmountSys : Option String
  isLuksExec : Except String Unit
  luksCloseExec : Option String
  pages : List (Except String (List Volume))
  detachDeletes : Nat → Option String

/-- Unmount (plugin.go): recover the LUKS base device from the mount
table (its error is overwritten unchecked); unmount the path when it
exists or when the stat errored (a broken mount); close the LUKS mapping
when there is a base device that still probes as encrypted; then look
the volume up and detach it.  Every failure along the way is logged
only, and the function returns nil - except that the lookup inherits
the nil-pointer crash of getByName when no volume matches. -/
def goUnmount (_cfg : Config) (env : UnmountEnv) (name : String) :
    List UEvent × GoResult Unit :=
  let baseDevice := match env.luksInfo with
    | .ok info => info.2.2
    | .error _ => ""
  let doUnmount := match env.dirPresent with
    | .ok b => b
    | .error _ => true
  let evs0 := [UEvent.luksInfoCall, UEvent.statCall]
  let evs1 := if doUnmount then evs0 ++ [UEvent.unmountSysCall] else evs0
  let evs2 :=
    if baseDevice ≠ "" then
      if (isLuks env.isLuksExec).1 then evs1 ++ [UEvent.isLuksCall, UEvent.luksCloseCall]
      else evs1 ++ [UEvent.isLuksCall]
    else evs1
  match getByName env.pages name with
  | .crash m => (evs2 ++ [.lookupCall], .crash m)
  | .err _ => (evs2 ++ [.lookupCall], .ok ())
  | .ok vol =>
    let _detachResult := detachVolume env.detachDeletes vol
    (evs2 ++ [.lookupCall, .detachCall], .ok ())

/-- Claim C5: for every environment in which the remote lookup does not
crash, Unmount returns nil whatever the outcomes of the stat, the
unmount syscall, the LUKS close, the lookup error path and the detach
are (so two consecutive calls both return nil); but in the state where
no remote volume matches the name, Unmount does not return nil - it
inherits the nil-pointer crash of getByName. -/
theorem goUnmount_always_nil (cfg : Config) (env : UnmountEnv) (name : String) :
    ((∀ m, getByName env.pages name ≠ .crash m) →
      (goUnmount cfg env name).2 = .ok ())
    ∧ (env.pages = [Except.ok []] →
      (goUnmount cfg env name).2 = .crash nilDerefMsg) := by
  constructor
  · intro hnocrash
    simp only [goUnmount]
    cases hg : getByName env.pages name with
    | crash m => exact absurd hg (hnocrash m)
    | err e => simp
    | ok vol => simp
  · intro hpages
    have hg : getByName env.pages name = .crash nilDerefMsg := by
      rw [hpages]; rfl
    simp only [goUnmount, hg]

/-- Witness environment for claim C5: the volume exists and is already
detached, the unmount syscall fails, and there is no LUKS mapping. -/
def wUnmountEnv : UnmountEnv :=
  ⟨.ok ("", "", ""), .ok true, some "not mounted", .error "not luks", none,
   [Except.ok [⟨"vid", "vol", "available", []⟩]], fun _ => none⟩

/-- Witness for claim C5 at a concrete input: unmounting an existing,
already-detached volume reports success even though the unmount syscall
failed. -/
theorem goUnmount_always_nil_witness :
    (goUnmount wConfig wUnmountEnv "vol").2 = GoResult.ok () :=
  (goUnmount_always_nil wConfig wUnmountEnv "vol").1
    (fun m h => by
      rw [show getByName wUnmountEnv.pages "vol"
          = GoResult.ok ⟨"vid", "vol", "available", []⟩ from rfl] at h
      exact GoResult.noConfusion h)

end CinderPlugin
